import Mathlib

/-!
Shallow embedding of src/tornet/tornet.py (tornet 2.2.1).

The script drives a local Tor daemon: it repeatedly sleeps, asks the daemon
for a new identity (service reload on POSIX, SIGNAL NEWNYM on the control
port on Windows), fetches the public IP from api.ipify.org and prints it.

Modelling choices:
  * Observable side effects (sleeps, external commands, HTTP fetches,
    NEWNYM, warnings, printed IPs) become an event trace; `sys.exit(c)` and
    `error(msg, c)` become an `Except.error c` result.  Plain informational
    `log`/banner output is not modelled.
  * The OS, the detected service manager, privilege state, command return
    codes, network responses and the random stream live in an `Env` record;
    `random.randint` is modelled as uniform selection driven by one natural
    draw per loop iteration.
  * `subprocess`, `requests` and `socket` are black boxes whose outcomes the
    `Env` supplies, exactly at the branch points the source inspects.
-/

namespace Tornet

/-- Operating systems as `platform.system().lower()` distinguishes them:
the source only ever tests equality with the string "windows". -/
inductive OS where
  | windows
  | linux
  | darwin
deriving DecidableEq, Repr

/-- Result of `detect_service_manager`: systemctl, sysv service, or none. -/
inductive SvcMgr where
  | systemctl
  | service
deriving DecidableEq, Repr

/-- Outcome of one `requests.get` call: a 2xx body, or one of the
`requests.RequestException` failures the spec names. -/
inductive NetResult where
  | ok (body : String)
  | httpErr
  | timeout
  | connErr
deriving DecidableEq, Repr

/-- Observable events of a run, in order. -/
inductive Event where
  /-- `time.sleep` for the given number of seconds. -/
  | sleep (n : Int)
  /-- an external command handed to `subprocess.run`. -/
  | exec (cmd : List String)
  /-- an HTTP GET against the IP service (`true` = through the SOCKS proxy). -/
  | oracleFetch (viaProxy : Bool)
  /-- `print_ip`: the fetched IP reported to the user. -/
  | report (ip : String)
  /-- a `warning(...)`, or the message printed by `error(...)`. -/
  | warn
  /-- `SIGNAL NEWNYM` sent on the Tor control port. -/
  | newnym
deriving DecidableEq, Repr

/-- External state and stubbed collaborator behaviour for one run. -/
structure Env where
  os : OS
  /-- `detect_service_manager()` result. -/
  svcMgr : Option SvcMgr
  /-- `os.geteuid() == 0`. -/
  isRoot : Bool
  /-- `shutil.which("sudo") is not None`. -/
  hasSudo : Bool
  /-- return code `subprocess.run` reports for a command. -/
  retcode : List String → Int
  /-- the `tasklist` probe raises (first `except` arm of `is_tor_running`). -/
  tasklistRaises : Bool
  /-- `tasklist` output contains "tor.exe". -/
  tasklistHasTor : Bool
  /-- `import psutil` succeeds. -/
  psutilAvailable : Bool
  /-- psutil sees a process named tor.exe. -/
  psutilSeesTor : Bool
  /-- fallback socket probe: connecting to 127.0.0.1:9050 succeeds
      (`false` also covers the probe itself raising). -/
  socketConnects : Bool
  /-- connecting to the control port 9051 succeeds. -/
  ctrlConnOk : Bool
  /-- the control port answers `250` to `SIGNAL NEWNYM`. -/
  newnym250 : Bool
  /-- response of `https://api.ipify.org` through the Tor proxy. -/
  torNet : NetResult
  /-- response of `https://api.ipify.org` fetched directly. -/
  directNet : NetResult
  /-- `http://www.google.com` reachable. -/
  internetOk : Bool
  /-- `is_tor_installed()` result. -/
  torInstalled : Bool
  /-- ground truth: a tor daemon process is actually running. -/
  daemonRunning : Bool
  /-- stream of uniform random draws; iteration `i` of the loop uses `rng i`. -/
  rng : Nat → Nat

/-- A computation of the script: the events it emits, and either a normal
return value or a process exit with the given status code. -/
structure Proc (α : Type) where
  events : List Event
  result : Except Nat α

namespace Proc

def bindP {α β : Type} (p : Proc α) (f : α → Proc β) : Proc β :=
  match p.result with
  | Except.error c => ⟨p.events, Except.error c⟩
  | Except.ok a => ⟨p.events ++ (f a).events, (f a).result⟩

instance : Monad Proc where
  pure a := ⟨[], Except.ok a⟩
  bind := bindP

/-- emit one event and continue. -/
def emit (e : Event) : Proc Unit := ⟨[e], Except.ok ()⟩

/-- `sys.exit(c)`: terminate the process with status `c`, printing nothing. -/
def exit {α : Type} (c : Nat) : Proc α := ⟨[], Except.error c⟩

/-- the source's `error(msg, c)` helper with `c > 0`: print the message
(a `warn` event) and `sys.exit(c)`. -/
def pyError {α : Type} (c : Nat) : Proc α := ⟨[Event.warn], Except.error c⟩

end Proc

open Proc

/-- exit status of the whole process when `main` ends with this result:
a normal return lets the interpreter exit 0. -/
def exitCode : Except Nat Unit → Nat
  | Except.ok _ => 0
  | Except.error c => c

/-- Python truthiness of an `Optional[bool]`: `None` is falsy. -/
def optTruthy : Option Bool → Bool
  | none => false
  | some b => b

/-- Python `str.strip()`: drop whitespace from both ends (structural, on the
character list, so that proofs can compute with it). -/
def pyStrip (s : String) : String :=
  String.mk (((s.data.dropWhile Char.isWhitespace).reverse.dropWhile Char.isWhitespace).reverse)

/-- Python `c in s` for a single character: substring test. -/
def pyContains (s : String) (c : Char) : Bool := s.data.contains c

/-- split a character list at the first occurrence of `c`. -/
def splitFirst (c : Char) : List Char → Option (List Char × List Char)
  | [] => none
  | x :: rest =>
      if x = c then some ([], rest)
      else
        match splitFirst c rest with
        | some (a, b) => some (x :: a, b)
        | none => none

/-- value of one decimal digit character. -/
def digitVal (c : Char) : Option Nat :=
  if c.isDigit then some (c.toNat - 48) else none

/-- decimal value of a nonempty all-digit character list. -/
def digitsVal (cs : List Char) : Option Nat :=
  if cs.isEmpty then none
  else cs.foldl (fun acc c => acc.bind (fun a => (digitVal c).map (fun d => a * 10 + d))) (some 0)

/-- Python `int(str)`: surrounding whitespace stripped, an optional sign,
then decimal digits; anything else raises `ValueError` (modelled as
`Except.error ()`).  Digit-group underscores are not modelled. -/
def pyInt (s : String) : Except Unit Int :=
  match (pyStrip s).data with
  | '-' :: rest =>
      match digitsVal rest with
      | some n => Except.ok (-(Int.ofNat n))
      | none => Except.error ()
  | '+' :: rest =>
      match digitsVal rest with
      | some n => Except.ok (Int.ofNat n)
      | none => Except.error ()
  | cs =>
      match digitsVal cs with
      | some n => Except.ok (Int.ofNat n)
      | none => Except.error ()

/-- `random.randint(lo, hi)`: a uniformly distributed integer of `[lo, hi]`
(both ends included) when `lo ≤ hi`, driven by one uniform draw; raises
`ValueError` when `lo > hi`. -/
def randint (lo hi : Int) (draw : Nat) : Except Unit Int :=
  if lo ≤ hi then Except.ok (lo + Int.ofNat (draw % (hi - lo + 1).toNat))
  else Except.error ()

/-- Python `s.split("-", 1)`: the part before the first hyphen and the rest
(the whole string when no hyphen occurs, as in Python a one-element list). -/
def splitOnce (s : String) : String × String :=
  match splitFirst '-' s.data with
  | some (a, b) => (String.mk a, String.mk b)
  | none => (s, "")

/-- `parse_interval`: a plain integer, or `lo-hi` resolved by `randint`;
any `ValueError` (bad digits, or `hi < lo` inside `randint`) is caught and
turned into `error(..., 8)`. -/
def parse_interval (s : String) (draw : Nat) : Proc Int :=
  if pyContains s '-' then
    match pyInt (splitOnce s).1, pyInt (splitOnce s).2 with
    | Except.ok lo, Except.ok hi =>
        match randint lo hi draw with
        | Except.ok v => pure v
        | Except.error _ => pyError 8
    | _, _ => pyError 8
  else
    match pyInt s with
    | Except.ok n => pure n
    | Except.error _ => pyError 8

/-- the command-execution core of the command runner: run the command, and on a
nonzero return code with `check=True` raise `CalledProcessError`, which
`run_cmd` turns into `error(..., 1)`. -/
def execCmd (env : Env) (cmd : List String) (check : Bool) : Proc Int := do
  emit (Event.exec cmd)
  let r := env.retcode cmd
  if check && r ≠ 0 then pyError 1 else pure r

/-- the source function running commands with optional sudo (renamed): prefix `sudo` when escalation is needed,
exiting 2 when it is needed but unavailable. -/
def runCmd (env : Env) (cmd : List String) (use_sudo : Bool) (check : Bool) : Proc Int :=
  if use_sudo && !env.isRoot then
    if !env.hasSudo then pyError 2
    else execCmd env ("sudo" :: cmd) check
  else execCmd env cmd check

/-- `detect_service_manager()`: supplied by the environment. -/
def detect_service_manager (env : Env) : Option SvcMgr := env.svcMgr

/-- the shared tail of `service_action`: run the service command without
`check`, and warn (only) when its return code is nonzero. -/
def serviceRun (env : Env) (cmd : List String) : Proc Unit := do
  let r ← runCmd env cmd true false
  if r ≠ 0 then emit Event.warn else pure ()

/-- `service_action(action)`: on Windows just warn that manual management is
required and return; otherwise build the systemctl/service command, exiting 3
when no service manager exists.  Returns `None` in every non-exiting case —
success or failure of the action is never signalled to the caller. -/
def service_action (env : Env) (action : String) : Proc Unit :=
  if env.os = OS.windows then emit Event.warn
  else
    match detect_service_manager env with
    | some SvcMgr.systemctl => serviceRun env ["systemctl", action, "tor"]
    | some SvcMgr.service => serviceRun env ["service", "tor", action]
    | none => pyError 3

/-- `is_tor_running()`: on Windows, the tasklist probe with psutil and socket
fallbacks, returning a boolean; on every other OS the function body is a
single `if current_os == "windows"` block, so control falls off the end and
the function returns `None`. -/
def is_tor_running (env : Env) : Option Bool :=
  if env.os = OS.windows then
    some (if !env.tasklistRaises then env.tasklistHasTor
          else if env.psutilAvailable then env.psutilSeesTor
          else env.socketConnects)
  else none

/-- `get_ip_via_tor()`: GET api.ipify.org through the SOCKS proxy; a 2xx body
is stripped and returned, any `RequestException` (HTTP error via
`raise_for_status`, timeout, connection/DNS failure) warns and yields `None`. -/
def get_ip_via_tor (env : Env) : Proc (Option String) := do
  emit (Event.oracleFetch true)
  match env.torNet with
  | NetResult.ok body => pure (some (pyStrip body))
  | _ => do
      emit Event.warn
      pure none

/-- `get_ip_direct()`: the same fetch without the proxy. -/
def get_ip_direct (env : Env) : Proc (Option String) := do
  emit (Event.oracleFetch false)
  match env.directNet with
  | NetResult.ok body => pure (some (pyStrip body))
  | _ => do
      emit Event.warn
      pure none

/-- `get_current_ip()`: proxy path when `is_tor_running()` is truthy, direct
path otherwise. -/
def get_current_ip (env : Env) : Proc (Option String) :=
  if optTruthy (is_tor_running env) then get_ip_via_tor env else get_ip_direct env

/-- the hard-coded empty control-port password of `change_ip_windows`. -/
def control_password : String := ""

/-- `change_ip_windows()`: connect to the control port (warn and return
`None` on refusal/timeout), send `SIGNAL NEWNYM` (the authentication branch
is dead: `control_password` is empty, hence falsy), and on a `250` reply
sleep 2 seconds and fetch the current IP; otherwise warn and return `None`. -/
def change_ip_windows (env : Env) : Proc (Option String) :=
  if !env.ctrlConnOk then do
    emit Event.warn
    pure none
  else do
    emit Event.newnym
    if env.newnym250 then do
      emit (Event.sleep 2)
      get_current_ip env
    else do
      emit Event.warn
      pure none

/-- `change_ip()`: the Windows control-port path, or on POSIX a service
reload followed unconditionally by a 2-second sleep and an IP fetch —
the reload's outcome is not consulted. -/
def change_ip (env : Env) : Proc (Option String) :=
  if env.os = OS.windows then change_ip_windows env
  else do
    service_action env "reload"
    emit (Event.sleep 2)
    get_current_ip env

/-- `print_ip(ip)`. -/
def print_ip (ip : String) : Proc Unit := emit (Event.report ip)

/-- one iteration of the body shared by both branches of
`change_ip_repeatedly`: parse the interval (with this iteration's random
draw), sleep, change the IP, and print it when the result is truthy
(a non-`None`, nonempty string). -/
def cycleBody (env : Env) (spec : String) (i : Nat) : Proc Unit := do
  let st ← parse_interval spec (env.rng i)
  emit (Event.sleep st)
  let newIp ← change_ip env
  match newIp with
  | some ip => if ip = "" then pure () else print_ip ip
  | none => pure ()

/-- `stop_services()`: on Windows, `taskkill` tor.exe (failures only warn);
elsewhere a service stop; then in both cases a best-effort
`pkill -f tornet` whose exceptions are swallowed. -/
def stop_services (env : Env) : Proc Unit :=
  bindP
    (if env.os = OS.windows then emit (Event.exec ["taskkill", "/F", "/IM", "tor.exe"])
     else service_action env "stop")
    (fun _ => emit (Event.exec ["pkill", "-f", "tornet"]))

/-- `signal_handler(sig, frame)`: name the signal (log output, unmodelled),
run `stop_services()`, print the termination notice and `sys.exit(0)`. -/
def signal_handler (env : Env) : Proc Unit := do
  stop_services env
  Proc.exit 0

/-- result of one `while True` / `for` loop run under bounded fuel. -/
inductive LoopOut where
  /-- the run ended: its events, and a normal return or process exit. -/
  | done (events : List Event) (result : Except Nat Unit)
  /-- the fuel ran out with the loop still going. -/
  | fuelOut (events : List Event)
deriving Repr

/-- prefix events onto a loop outcome. -/
def prependEvents (evs : List Event) : LoopOut → LoopOut
  | LoopOut.done t r => LoopOut.done (evs ++ t) r
  | LoopOut.fuelOut t => LoopOut.fuelOut (evs ++ t)

/-- the `count == 0` branch of `change_ip_repeatedly`: `while True` running
`cycleBody`, fuel-bounded.  `intr i = true` means SIGINT arrives while
iteration `i` is about to sleep: the registered `signal_handler` runs and
exits the process (so the `except KeyboardInterrupt: break` arm is dead —
the default KeyboardInterrupt-raising handler was replaced in `main`). -/
def loopWhile (env : Env) (spec : String) (intr : Nat → Bool) : Nat → Nat → LoopOut
  | _, 0 => LoopOut.fuelOut []
  | i, fuel + 1 =>
    if intr i then LoopOut.done (signal_handler env).events (signal_handler env).result
    else
      match (cycleBody env spec i).result with
      | Except.error c => LoopOut.done (cycleBody env spec i).events (Except.error c)
      | Except.ok _ =>
          prependEvents (cycleBody env spec i).events (loopWhile env spec intr (i + 1) fuel)

/-- the `count != 0` branch: `for _ in range(count)` over the listed
iteration indices, with the same interrupt treatment. -/
def loopFor (env : Env) (spec : String) (intr : Nat → Bool) : List Nat → Proc Unit
  | [] => pure ()
  | i :: rest =>
    if intr i then signal_handler env
    else bindP (cycleBody env spec i) (fun _ => loopFor env spec intr rest)

/-- Python `range(count)` for an `int` count: empty when `count <= 0`. -/
def pyRange (count : Int) : List Nat :=
  if count ≤ 0 then [] else List.range count.toNat

/-- `change_ip_repeatedly(interval_str, count)`. -/
def change_ip_repeatedly (env : Env) (spec : String) (intr : Nat → Bool)
    (count : Int) (fuel : Nat) : LoopOut :=
  if count = 0 then loopWhile env spec intr 0 fuel
  else LoopOut.done (loopFor env spec intr (pyRange count)).events
    (loopFor env spec intr (pyRange count)).result

/-- `check_internet_connection()`: exit 9 when www.google.com is unreachable. -/
def check_internet_connection (env : Env) : Proc Unit :=
  if env.internetOk then pure () else pyError 9

/-- `initialize_environment()` (renamed): on Windows, if Tor is not seen
running, warn and wait 10 seconds, then the torrc check (log-only); on POSIX,
start the tor service. -/
def initEnvironment (env : Env) : Proc Unit :=
  if env.os = OS.windows then
    if optTruthy (is_tor_running env) then pure ()
    else do
      emit Event.warn
      emit (Event.sleep 10)
  else service_action env "start"

/-- the `--stop` path of `main`: `stop_services()` then return (the
interpreter then exits 0). -/
def main_stop (env : Env) : Proc Unit := stop_services env

/-- the `--ip` path of `main`: fetch the current IP and print it when truthy. -/
def main_ip (env : Env) : Proc Unit := do
  let ip ← get_current_ip env
  match ip with
  | some s => if s = "" then pure () else print_ip s
  | none => pure ()

/-- the pre-loop effects of `main`'s default path once the install checks
pass: internet check, banner (unmodelled), environment initialisation and
the 5-second settling sleep before the loop starts. -/
def startupPhase (env : Env) : Proc Unit := do
  check_internet_connection env
  initEnvironment env
  emit (Event.sleep 5)

/-- the default (rotation-loop) path of `main`: dependency checks, internet
check, banner (unmodelled), environment initialisation, a 5-second settling
sleep, then `change_ip_repeatedly(args.interval, args.count)`. -/
def main_loop (env : Env) (spec : String) (count : Int) (intr : Nat → Bool)
    (fuel : Nat) : LoopOut :=
  if !env.torInstalled then LoopOut.done [Event.warn] (Except.error 10)
  else
    match (startupPhase env).result with
    | Except.error c => LoopOut.done (startupPhase env).events (Except.error c)
    | Except.ok _ =>
        prependEvents (startupPhase env).events
          (change_ip_repeatedly env spec intr count fuel)

/-- no interrupt ever arrives. -/
def noIntr : Nat → Bool := fun _ => false

/-- environments in which one rotation cycle cannot abort the process:
Windows (the control-port path never exits), or a POSIX system with a
service manager and either root or sudo available. -/
def cycleSafe (env : Env) : Prop :=
  env.os = OS.windows ∨ ((∃ m, env.svcMgr = some m) ∧ (env.isRoot = true ∨ env.hasSudo = true))

/-- the interval spec resolves (to some value) whatever the draw. -/
def specOk (s : String) : Prop :=
  ∀ d, ∃ n, (parse_interval s d).result = Except.ok n

/-- the value an IP fetch returns for a given network outcome. -/
def netVal : NetResult → Option String
  | NetResult.ok body => some (pyStrip body)
  | _ => none

/-- the warning events an IP fetch emits for a given network outcome. -/
def netWarn : NetResult → List Event
  | NetResult.ok _ => []
  | _ => [Event.warn]

/-- the report step at the end of a cycle, as a function of what
`change_ip` produced: print exactly when the IP is truthy. -/
def reportEvents : Except Nat (Option String) → List Event
  | Except.ok (some ip) => if ip = "" then [] else [Event.report ip]
  | _ => []

/-- a cycle's result as a function of what `change_ip` produced. -/
def reportResult : Except Nat (Option String) → Except Nat Unit
  | Except.ok _ => Except.ok ()
  | Except.error c => Except.error c

/-- the events of a loop outcome. -/
def loopOutEvents : LoopOut → List Event
  | LoopOut.done t _ => t
  | LoopOut.fuelOut t => t

/-- a baseline POSIX environment: systemd detected, running as root, every
external command succeeding, both network paths answering. -/
def envBase : Env := {
  os := OS.linux, svcMgr := some SvcMgr.systemctl, isRoot := true, hasSudo := true,
  retcode := fun _ => 0, tasklistRaises := false, tasklistHasTor := false,
  psutilAvailable := false, psutilSeesTor := false, socketConnects := false,
  ctrlConnOk := true, newnym250 := true, torNet := NetResult.ok " 1.2.3.4 ",
  directNet := NetResult.ok "5.6.7.8", internetOk := true, torInstalled := true,
  daemonRunning := false, rng := fun _ => 0 }

/-- POSIX environment whose every external command reports return code 1:
in particular the tor service reload fails. -/
def envReloadFails : Env := { envBase with retcode := fun _ => 1 }

/-- POSIX environment with no supported service manager. -/
def envNoMgr : Env := { envBase with svcMgr := none }

/-- POSIX environment with a service manager but neither root nor sudo. -/
def envNoSudo : Env := { envBase with isRoot := false, hasSudo := false }

/-- POSIX environment in which the tor daemon is in fact running. -/
def envDaemonUp : Env := { envBase with daemonRunning := true, directNet := NetResult.ok "9.9.9.9" }

/-- Windows environment: control port reachable but NEWNYM is refused. -/
def envWinNoNewnym : Env :=
  { envBase with
    os := OS.windows
    tasklistHasTor := true
    daemonRunning := true
    newnym250 := false }

/-- Windows environment with a truthful tasklist probe seeing tor running. -/
def envWinUp : Env :=
  { envBase with
    os := OS.windows
    tasklistHasTor := true
    daemonRunning := true }

/-! ## Structural lemmas -/

theorem bindP_mk_ok {α β : Type} (evs : List Event) (a : α) (f : α → Proc β) :
    bindP ⟨evs, Except.ok a⟩ f = ⟨evs ++ (f a).events, (f a).result⟩ := rfl

theorem bindP_mk_error {α β : Type} (evs : List Event) (c : Nat) (f : α → Proc β) :
    bindP ⟨evs, Except.error c⟩ f = ⟨evs, Except.error c⟩ := rfl

theorem bind_eq_bindP {α β : Type} (p : Proc α) (f : α → Proc β) : p >>= f = bindP p f := rfl

theorem pure_eq {α : Type} (a : α) : (pure a : Proc α) = ⟨[], Except.ok a⟩ := rfl

theorem get_ip_via_tor_eq (env : Env) :
    get_ip_via_tor env =
      ⟨Event.oracleFetch true :: netWarn env.torNet, Except.ok (netVal env.torNet)⟩ := by
  cases h : env.torNet <;>
    simp [get_ip_via_tor, h, netWarn, netVal, bind_eq_bindP, bindP, emit, pure_eq]

theorem get_ip_direct_eq (env : Env) :
    get_ip_direct env =
      ⟨Event.oracleFetch false :: netWarn env.directNet, Except.ok (netVal env.directNet)⟩ := by
  cases h : env.directNet <;>
    simp [get_ip_direct, h, netWarn, netVal, bind_eq_bindP, bindP, emit, pure_eq]

theorem emit_bindP {β : Type} (e : Event) (f : Unit → Proc β) :
    bindP (emit e) f = ⟨e :: (f ()).events, (f ()).result⟩ := rfl

theorem proc_bind_ok {α β : Type} (p : Proc α) (f : α → Proc β) (a : α)
    (hp : p.result = Except.ok a) :
    bindP p f = ⟨p.events ++ (f a).events, (f a).result⟩ := by
  unfold bindP
  rw [hp]

theorem execCmd_nocheck (env : Env) (cmd : List String) :
    execCmd env cmd false = ⟨[Event.exec cmd], Except.ok (env.retcode cmd)⟩ := by
  simp [execCmd, bind_eq_bindP, bindP, emit, pure_eq]

theorem is_tor_running_none (env : Env) (hos : env.os ≠ OS.windows) :
    is_tor_running env = none := by
  simp [is_tor_running, hos]

theorem serviceRun_ok (env : Env) (cmd : List String)
    (hpriv : env.isRoot = true ∨ env.hasSudo = true) :
    (serviceRun env cmd).result = Except.ok () := by
  unfold serviceRun runCmd
  cases hr : env.isRoot with
  | true =>
      rw [bind_eq_bindP, if_neg (by simp [hr]), execCmd_nocheck, bindP_mk_ok]
      split
      · rfl
      · rfl
  | false =>
      have hs : env.hasSudo = true := by
        rcases hpriv with h | h
        · rw [hr] at h
          exact absurd h (by simp)
        · exact h
      rw [bind_eq_bindP, if_pos (by simp [hr]), if_neg (by simp [hs]), execCmd_nocheck,
        bindP_mk_ok]
      split
      · rfl
      · rfl

theorem service_action_ok (env : Env) (action : String) (hos : env.os ≠ OS.windows)
    (m : SvcMgr) (hm : env.svcMgr = some m)
    (hpriv : env.isRoot = true ∨ env.hasSudo = true) :
    (service_action env action).result = Except.ok () := by
  unfold service_action detect_service_manager
  rw [if_neg hos, hm]
  cases m with
  | systemctl => exact serviceRun_ok env _ hpriv
  | service => exact serviceRun_ok env _ hpriv

theorem change_ip_posix (env : Env) (hos : env.os ≠ OS.windows)
    (hok : (service_action env "reload").result = Except.ok ()) :
    change_ip env =
      ⟨(service_action env "reload").events ++
          Event.sleep 2 :: Event.oracleFetch false :: netWarn env.directNet,
        Except.ok (netVal env.directNet)⟩ := by
  unfold change_ip
  rw [if_neg hos, bind_eq_bindP, proc_bind_ok _ _ () hok, bind_eq_bindP]
  have hg : get_current_ip env = get_ip_direct env := by
    unfold get_current_ip
    rw [is_tor_running_none env hos]
    rfl
  rw [show (bindP (emit (Event.sleep 2)) fun _ => get_current_ip env) =
      ⟨Event.sleep 2 :: (get_current_ip env).events, (get_current_ip env).result⟩ from rfl]
  rw [hg, get_ip_direct_eq]

theorem change_ip_windows_noconn (env : Env) (hos : env.os = OS.windows)
    (hc : env.ctrlConnOk = false) :
    change_ip env = ⟨[Event.warn], Except.ok none⟩ := by
  unfold change_ip change_ip_windows
  rw [if_pos hos, if_pos (by simp [hc])]
  rfl

theorem change_ip_windows_refused (env : Env) (hos : env.os = OS.windows)
    (hc : env.ctrlConnOk = true) (hn : env.newnym250 = false) :
    change_ip env = ⟨[Event.newnym, Event.warn], Except.ok none⟩ := by
  unfold change_ip change_ip_windows
  rw [if_pos hos, if_neg (by simp [hc]), if_neg (by simp [hn])]
  rfl

theorem change_ip_windows_accepted (env : Env) (hos : env.os = OS.windows)
    (hc : env.ctrlConnOk = true) (hn : env.newnym250 = true) :
    change_ip env =
      ⟨Event.newnym :: Event.sleep 2 :: (get_current_ip env).events,
        (get_current_ip env).result⟩ := by
  unfold change_ip change_ip_windows
  rw [if_pos hos, if_neg (by simp [hc]), if_pos hn]
  rfl

theorem parse_interval_cases (s : String) (d : Nat) :
    (∃ v, parse_interval s d = ⟨[], Except.ok v⟩) ∨
      parse_interval s d = ⟨[Event.warn], Except.error 8⟩ := by
  unfold parse_interval
  by_cases hc : pyContains s '-'
  · rw [if_pos hc]
    cases h1 : pyInt (splitOnce s).1 with
    | error e => right; rfl
    | ok lo =>
        cases h2 : pyInt (splitOnce s).2 with
        | error e => right; rfl
        | ok hi =>
            cases hr : randint lo hi d with
            | error e =>
                right
                simp only [hr]
                rfl
            | ok v =>
                left
                exact ⟨v, by simp only [hr]; rfl⟩
  · rw [if_neg hc]
    cases h1 : pyInt s with
    | error e => right; rfl
    | ok n => left; exact ⟨n, rfl⟩

theorem parse_interval_ok_shape (s : String) (d : Nat) (v : Int)
    (h : (parse_interval s d).result = Except.ok v) :
    parse_interval s d = ⟨[], Except.ok v⟩ := by
  rcases parse_interval_cases s d with ⟨w, hw⟩ | hbad
  · rw [hw] at h ⊢
    cases h
    rfl
  · rw [hbad] at h
    cases h

theorem parse_interval_err_shape (s : String) (d : Nat)
    (h : (parse_interval s d).result = Except.error 8) :
    parse_interval s d = ⟨[Event.warn], Except.error 8⟩ := by
  rcases parse_interval_cases s d with ⟨w, hw⟩ | hbad
  · rw [hw] at h
    cases h
  · exact hbad

theorem cycleBody_eq (env : Env) (spec : String) (i : Nat) (v : Int)
    (hp : (parse_interval spec (env.rng i)).result = Except.ok v) :
    cycleBody env spec i =
      ⟨Event.sleep v :: ((change_ip env).events ++ reportEvents (change_ip env).result),
        reportResult (change_ip env).result⟩ := by
  unfold cycleBody
  simp only [bind_eq_bindP]
  rw [parse_interval_ok_shape spec (env.rng i) v hp, bindP_mk_ok, emit_bindP]
  rcases hc : change_ip env with ⟨evs, res⟩
  cases res with
  | error c => simp [bindP, reportEvents, reportResult]
  | ok o =>
      cases o with
      | none => simp [bindP, reportEvents, reportResult, pure_eq]
      | some ip =>
          by_cases hip : ip = ""
          · simp [bindP, reportEvents, reportResult, hip, pure_eq]
          · simp [bindP, reportEvents, reportResult, hip, pure_eq, print_ip, emit]

theorem cycleBody_err (env : Env) (spec : String) (i : Nat)
    (hp : (parse_interval spec (env.rng i)).result = Except.error 8) :
    cycleBody env spec i = ⟨[Event.warn], Except.error 8⟩ := by
  unfold cycleBody
  rw [bind_eq_bindP, parse_interval_err_shape spec (env.rng i) hp, bindP_mk_error]

theorem get_current_ip_result (env : Env) :
    (get_current_ip env).result =
      Except.ok (if optTruthy (is_tor_running env) then netVal env.torNet
                 else netVal env.directNet) := by
  unfold get_current_ip
  by_cases h : optTruthy (is_tor_running env)
  · rw [if_pos h, if_pos h, get_ip_via_tor_eq]
  · rw [if_neg h, if_neg h, get_ip_direct_eq]

theorem change_ip_ok (env : Env) (hs : cycleSafe env) :
    ∃ o, (change_ip env).result = Except.ok o := by
  by_cases hos : env.os = OS.windows
  · by_cases hc : env.ctrlConnOk
    · by_cases hn : env.newnym250
      · rw [change_ip_windows_accepted env hos (by simpa using hc) (by simpa using hn)]
        exact ⟨_, get_current_ip_result env⟩
      · rw [change_ip_windows_refused env hos (by simpa using hc) (by simpa using hn)]
        exact ⟨none, rfl⟩
    · rw [change_ip_windows_noconn env hos (by simpa using hc)]
      exact ⟨none, rfl⟩
  · rcases hs with h | ⟨⟨m, hm⟩, hpriv⟩
    · exact absurd h hos
    · rw [change_ip_posix env hos (service_action_ok env _ hos m hm hpriv)]
      exact ⟨netVal env.directNet, rfl⟩

theorem cycleBody_ok_of_safe (env : Env) (spec : String) (i : Nat)
    (hs : cycleSafe env) (hp : specOk spec) :
    (cycleBody env spec i).result = Except.ok () := by
  obtain ⟨v, hv⟩ := hp (env.rng i)
  rw [cycleBody_eq env spec i v hv]
  obtain ⟨o, ho⟩ := change_ip_ok env hs
  simp [ho, reportResult]

theorem loopFor_ok (env : Env) (spec : String) (intr : Nat → Bool) (l : List Nat)
    (hint : ∀ i ∈ l, intr i = false)
    (hb : ∀ i ∈ l, (cycleBody env spec i).result = Except.ok ()) :
    loopFor env spec intr l =
      ⟨(l.map fun i => (cycleBody env spec i).events).flatten, Except.ok ()⟩ := by
  induction l with
  | nil => rfl
  | cons i rest ih =>
      have hi : intr i = false := hint i (List.mem_cons_self i rest)
      have hbi := hb i (List.mem_cons_self i rest)
      unfold loopFor
      rw [if_neg (by simp [hi]), proc_bind_ok _ _ () hbi,
        ih (fun j hj => hint j (List.mem_cons_of_mem i hj))
          (fun j hj => hb j (List.mem_cons_of_mem i hj))]
      simp

theorem loopWhile_noIntr (env : Env) (spec : String) (intr : Nat → Bool)
    (hb : ∀ i, (cycleBody env spec i).result = Except.ok ())
    (hint : ∀ i, intr i = false) :
    ∀ fuel i, ∃ t, loopWhile env spec intr i fuel = LoopOut.fuelOut t := by
  intro fuel
  induction fuel with
  | zero => exact fun i => ⟨[], rfl⟩
  | succ n ih =>
      intro i
      obtain ⟨t, ht⟩ := ih (i + 1)
      refine ⟨(cycleBody env spec i).events ++ t, ?_⟩
      unfold loopWhile
      rw [if_neg (by simp [hint i])]
      simp only [hb i]
      rw [ht]
      rfl

theorem loopWhile_intr_gen (env : Env) (spec : String) (intr : Nat → Bool) :
    ∀ (n fuel i : Nat), (∀ j, j < n → intr (i + j) = false) → intr (i + n) = true →
      (∀ j, j < n → (cycleBody env spec (i + j)).result = Except.ok ()) → n < fuel →
      loopWhile env spec intr i fuel =
        LoopOut.done
          ((((List.range n).map fun j => (cycleBody env spec (i + j)).events).flatten)
              ++ (signal_handler env).events)
          (signal_handler env).result := by
  intro n
  induction n with
  | zero =>
      intro fuel i h0 hi hb hf
      cases fuel with
      | zero => omega
      | succ m =>
          unfold loopWhile
          rw [if_pos (by simpa using hi)]
          simp
  | succ k ih =>
      intro fuel i h0 hi hb hf
      cases fuel with
      | zero => omega
      | succ m =>
          have h00 : intr i = false := by
            have h := h0 0 (by omega)
            simpa using h
          unfold loopWhile
          rw [if_neg (by simp [h00])]
          have hbi : (cycleBody env spec i).result = Except.ok () := by
            have h := hb 0 (by omega)
            simpa using h
          simp only [hbi]
          have hrec := ih m (i + 1)
            (fun j hj => by
              have h := h0 (j + 1) (by omega)
              rwa [show i + (j + 1) = i + 1 + j by omega] at h)
            (by
              have h := hi
              rwa [show i + (k + 1) = i + 1 + k by omega] at h)
            (fun j hj => by
              have h := hb (j + 1) (by omega)
              rwa [show i + (j + 1) = i + 1 + j by omega] at h)
            (by omega)
          have harg :
              List.map (fun j => (cycleBody env spec (i + j)).events) (List.range (k + 1)) =
                (cycleBody env spec i).events ::
                  List.map (fun j => (cycleBody env spec (i + 1 + j)).events) (List.range k) := by
            rw [List.range_succ_eq_map, List.map_cons, List.map_map, Nat.add_zero]
            congr 1
            apply List.map_congr_left
            intro j hj
            simp only [Function.comp_apply]
            rw [show i + (j + 1) = i + 1 + j by omega]
          rw [hrec, harg]
          simp [prependEvents, List.append_assoc]

theorem signal_handler_eq (env : Env) :
    signal_handler env =
      ⟨(stop_services env).events,
        match (stop_services env).result with
        | Except.ok _ => Except.error 0
        | Except.error c => Except.error c⟩ := by
  unfold signal_handler
  rw [bind_eq_bindP]
  rcases h : stop_services env with ⟨evs, res⟩
  cases res with
  | error c => simp [bindP]
  | ok a => simp [bindP, Proc.exit]

theorem stop_services_ok (env : Env) (hs : cycleSafe env) :
    (stop_services env).result = Except.ok () := by
  unfold stop_services
  by_cases hos : env.os = OS.windows
  · rw [if_pos hos]
    rfl
  · rcases hs with h | ⟨⟨m, hm⟩, hpriv⟩
    · exact absurd h hos
    · rw [if_neg hos, proc_bind_ok _ _ () (service_action_ok env _ hos m hm hpriv)]
      rfl

theorem service_action_nomgr (env : Env) (action : String) (hos : env.os ≠ OS.windows)
    (hm : env.svcMgr = none) : service_action env action = pyError 3 := by
  unfold service_action detect_service_manager
  rw [if_neg hos, hm]

theorem service_action_nosudo (env : Env) (action : String) (hos : env.os ≠ OS.windows)
    (m : SvcMgr) (hm : env.svcMgr = some m) (hroot : env.isRoot = false)
    (hsudo : env.hasSudo = false) :
    (service_action env action).result = Except.error 2 := by
  have hsr : ∀ cmd : List String, (serviceRun env cmd).result = Except.error 2 := by
    intro cmd
    unfold serviceRun runCmd
    rw [bind_eq_bindP, if_pos (by simp [hroot]), if_pos (by simp [hsudo])]
    rfl
  unfold service_action detect_service_manager
  rw [if_neg hos, hm]
  cases m with
  | systemctl => exact hsr _
  | service => exact hsr _

theorem stop_services_err (env : Env) (c : Nat) (hos : env.os ≠ OS.windows)
    (h : (service_action env "stop").result = Except.error c) :
    stop_services env = ⟨(service_action env "stop").events, Except.error c⟩ := by
  unfold stop_services
  rw [if_neg hos]
  unfold bindP
  rw [h]

theorem is_tor_running_windows (env : Env) (hos : env.os = OS.windows)
    (hraises : env.tasklistRaises = false) :
    is_tor_running env = some env.tasklistHasTor := by
  simp [is_tor_running, hos, hraises]

theorem main_ip_head (env : Env) :
    (main_ip env).events.head? =
      some (Event.oracleFetch (optTruthy (is_tor_running env))) := by
  unfold main_ip
  rw [bind_eq_bindP]
  by_cases h : optTruthy (is_tor_running env)
  · have hg : get_current_ip env = get_ip_via_tor env := by
      unfold get_current_ip
      rw [if_pos h]
    rw [hg, get_ip_via_tor_eq, bindP_mk_ok, h]
    rfl
  · have hg : get_current_ip env = get_ip_direct env := by
      unfold get_current_ip
      rw [if_neg h]
    rw [hg, get_ip_direct_eq, bindP_mk_ok]
    simp only [Bool.not_eq_true] at h
    rw [h]
    rfl

/-- C10: on every non-Windows platform the whole body of `is_tor_running` is
one `if current_os == "windows"` block, so the function returns `None`
(falsy), and `get_current_ip` always takes the direct, non-proxy path there —
regardless of whether the daemon is actually running. -/
theorem c10_nonwindows_check_none (env : Env) (hos : env.os ≠ OS.windows) :
    is_tor_running env = none ∧
    get_current_ip env = get_ip_direct env ∧
    (get_current_ip env).events.head? = some (Event.oracleFetch false) := by
  have h1 := is_tor_running_none env hos
  have h2 : get_current_ip env = get_ip_direct env := by
    unfold get_current_ip
    rw [h1]
    rfl
  refine ⟨h1, h2, ?_⟩
  rw [h2, get_ip_direct_eq]
  rfl

theorem c10_witness :
    is_tor_running envDaemonUp = none ∧
    get_current_ip envDaemonUp = get_ip_direct envDaemonUp ∧
    (get_current_ip envDaemonUp).events.head? = some (Event.oracleFetch false) :=
  c10_nonwindows_check_none envDaemonUp (by decide)

/-- C7: both IP-oracle fetches always return normally — a trimmed body on a
2xx answer, `None` plus exactly one warning on any request failure (HTTP
error, timeout, connection/DNS failure) — and a failed fetch never stops the
loop: a cycle in a safe environment still ends normally. -/
theorem c7_oracle_never_raises (env : Env) :
    get_ip_via_tor env =
      ⟨Event.oracleFetch true :: netWarn env.torNet, Except.ok (netVal env.torNet)⟩ ∧
    get_ip_direct env =
      ⟨Event.oracleFetch false :: netWarn env.directNet, Except.ok (netVal env.directNet)⟩ ∧
    (∀ body, env.torNet = NetResult.ok body → netVal env.torNet = some (pyStrip body)) ∧
    (env.torNet = NetResult.httpErr ∨ env.torNet = NetResult.timeout ∨
        env.torNet = NetResult.connErr →
      netVal env.torNet = none ∧ netWarn env.torNet = [Event.warn]) ∧
    (∀ spec i, cycleSafe env → specOk spec →
      (cycleBody env spec i).result = Except.ok ()) := by
  refine ⟨get_ip_via_tor_eq env, get_ip_direct_eq env, ?_, ?_, ?_⟩
  · intro body h
    rw [h]
    rfl
  · intro h
    rcases h with h | h | h <;> rw [h] <;> exact ⟨rfl, rfl⟩
  · intro spec i hs hp
    exact cycleBody_ok_of_safe env spec i hs hp

theorem c7_witness :
    get_ip_via_tor envBase = ⟨[Event.oracleFetch true], Except.ok (some "1.2.3.4")⟩ ∧
    (cycleBody envBase "1" 0).result = Except.ok () := by
  have h := c7_oracle_never_raises envBase
  constructor
  · rw [h.1]
    rfl
  · exact h.2.2.2.2 "1" 0 (Or.inr ⟨⟨SvcMgr.systemctl, rfl⟩, Or.inl rfl⟩) (fun d => ⟨1, rfl⟩)

/-- C5 counterexample: on a POSIX host with no supported service manager,
`--stop` runs into `service_action`'s `error(..., 3)` and the process exits
with status 3, not 0 — refuting "always exits with status 0". -/
theorem c5_counterexample :
    (main_stop envNoMgr).result = Except.error 3 ∧
    exitCode (main_stop envNoMgr).result = 3 := ⟨rfl, rfl⟩

/-- C5 amended: `--stop` is a best-effort shutdown that exits 0 on Windows
and on any POSIX host where a service manager was detected and stopping can
be attempted (root, or sudo available) — even when the stop command itself
fails; but it exits 3 when no service manager is found, and 2 when
escalation is required and sudo is missing. -/
theorem c5_stop_exit_status (env : Env) :
    (env.os = OS.windows →
        main_stop env =
          ⟨[Event.exec ["taskkill", "/F", "/IM", "tor.exe"],
              Event.exec ["pkill", "-f", "tornet"]],
            Except.ok ()⟩) ∧
    (env.os ≠ OS.windows → (∃ m, env.svcMgr = some m) →
        (env.isRoot = true ∨ env.hasSudo = true) →
        exitCode (main_stop env).result = 0) ∧
    (env.os ≠ OS.windows → env.svcMgr = none →
        (main_stop env).result = Except.error 3) ∧
    (env.os ≠ OS.windows → env.isRoot = false → env.hasSudo = false →
        (∃ m, env.svcMgr = some m) →
        (main_stop env).result = Except.error 2) := by
  refine ⟨?_, ?_, ?_, ?_⟩
  · intro hos
    unfold main_stop stop_services
    rw [if_pos hos]
    rfl
  · intro hos hm hpriv
    have h := stop_services_ok env (Or.inr ⟨hm, hpriv⟩)
    unfold main_stop
    rw [h]
    rfl
  · intro hos hm
    unfold main_stop
    rw [stop_services_err env 3 hos (by rw [service_action_nomgr env _ hos hm]; rfl)]
  · intro hos hroot hsudo hm
    rcases hm with ⟨m, hm⟩
    unfold main_stop
    rw [stop_services_err env 2 hos (service_action_nosudo env _ hos m hm hroot hsudo)]

theorem c5_witness :
    main_stop envWinUp =
      ⟨[Event.exec ["taskkill", "/F", "/IM", "tor.exe"],
          Event.exec ["pkill", "-f", "tornet"]],
        Except.ok ()⟩ :=
  (c5_stop_exit_status envWinUp).1 rfl

/-- C6 counterexample: on a POSIX host whose tor daemon is actually running,
`--ip` still queries the oracle through the direct path (no proxy fetch ever
happens), because `is_tor_running` returns `None` off-Windows — refuting
"if the daemon is currently running, the IP Oracle is queried through the
proxy path". -/
theorem c6_counterexample :
    envDaemonUp.daemonRunning = true ∧
    Event.oracleFetch true ∉ (main_ip envDaemonUp).events ∧
    Event.oracleFetch false ∈ (main_ip envDaemonUp).events ∧
    Event.report "9.9.9.9" ∈ (main_ip envDaemonUp).events := by
  refine ⟨rfl, ?_, ?_, ?_⟩ <;> decide

/-- C6 amended: the `--ip` path selects the proxy exactly as the Windows
process probe reports: on Windows with a working `tasklist` probe that
reflects the daemon's true state, the proxy path is used iff the daemon
runs; on every other OS the probe yields `None` and the direct path is
always used. -/
theorem c6_ip_query_path (env : Env) :
    (env.os = OS.windows → env.tasklistRaises = false →
        env.tasklistHasTor = env.daemonRunning →
        (main_ip env).events.head? = some (Event.oracleFetch env.daemonRunning)) ∧
    (env.os ≠ OS.windows →
        (main_ip env).events.head? = some (Event.oracleFetch false)) := by
  constructor
  · intro hos hraises htruth
    rw [main_ip_head env, is_tor_running_windows env hos hraises, htruth]
    rfl
  · intro hos
    rw [main_ip_head env, is_tor_running_none env hos]
    rfl

theorem c6_witness :
    (main_ip envWinUp).events.head? = some (Event.oracleFetch true) := by
  have h := (c6_ip_query_path envWinUp).1 rfl rfl rfl
  simpa using h

/-- C1 counterexample: on a POSIX host whose service reload reports return
code 1 (the rotate step failed, visible as a warning), `change_ip` still
queries the IP Oracle over the direct path and returns the fetched address,
and the cycle reports it — refuting "when rotate() signals failure, no
oracle call is made in that cycle and nothing is reported". -/
theorem c1_counterexample :
    envReloadFails.retcode ["systemctl", "reload", "tor"] = 1 ∧
    (change_ip envReloadFails).events =
      [Event.exec ["systemctl", "reload", "tor"], Event.warn, Event.sleep 2,
        Event.oracleFetch false] ∧
    (change_ip envReloadFails).result = Except.ok (some "5.6.7.8") ∧
    (cycleBody envReloadFails "3" 0).events =
      [Event.sleep 3, Event.exec ["systemctl", "reload", "tor"], Event.warn,
        Event.sleep 2, Event.oracleFetch false, Event.report "5.6.7.8"] :=
  ⟨rfl, rfl, rfl, rfl⟩

/-- C1 amended: on the Windows path the oracle is queried only after the
NEWNYM rotate succeeds — when the control port is unreachable or refuses,
no fetch happens, `change_ip` yields `None`, and the cycle reports nothing;
on the POSIX path the oracle is queried unconditionally after the reload,
whatever the reload's return code. -/
theorem c1_fetch_gating (env : Env) :
    (env.os = OS.windows → (env.ctrlConnOk = false ∨ env.newnym250 = false) →
        (∀ b, Event.oracleFetch b ∉ (change_ip env).events) ∧
        (change_ip env).result = Except.ok none ∧
        (∀ spec i ip, Event.report ip ∉ (cycleBody env spec i).events)) ∧
    (env.os ≠ OS.windows → cycleSafe env →
        Event.oracleFetch false ∈ (change_ip env).events ∧
        (change_ip env).result = Except.ok (netVal env.directNet)) := by
  constructor
  · intro hos hfail
    have hch : change_ip env = ⟨[Event.warn], Except.ok none⟩ ∨
        change_ip env = ⟨[Event.newnym, Event.warn], Except.ok none⟩ := by
      rcases hfail with hc | hn
      · exact Or.inl (change_ip_windows_noconn env hos hc)
      · by_cases hc : env.ctrlConnOk
        · exact Or.inr (change_ip_windows_refused env hos (by simpa using hc) hn)
        · exact Or.inl (change_ip_windows_noconn env hos (by simpa using hc))
    have hnofetch : ∀ b, Event.oracleFetch b ∉ (change_ip env).events := by
      intro b
      rcases hch with h | h <;> rw [h] <;> simp
    have hres : (change_ip env).result = Except.ok none := by
      rcases hch with h | h <;> rw [h]
    refine ⟨hnofetch, hres, ?_⟩
    intro spec i ip
    rcases parse_interval_cases spec (env.rng i) with ⟨v, hv⟩ | hbad
    · rw [cycleBody_eq env spec i v (by rw [hv])]
      rw [hres]
      rcases hch with h | h <;> rw [h] <;> simp [reportEvents]
    · rw [cycleBody_err env spec i (by rw [hbad])]
      simp
  · intro hos hs
    rcases hs with h | ⟨⟨m, hm⟩, hpriv⟩
    · exact absurd h hos
    · rw [change_ip_posix env hos (service_action_ok env _ hos m hm hpriv)]
      constructor
      · simp
      · rfl

theorem c1_witness :
    (∀ b, Event.oracleFetch b ∉ (change_ip envWinNoNewnym).events) ∧
    (change_ip envWinNoNewnym).result = Except.ok none := by
  have h := (c1_fetch_gating envWinNoNewnym).1 rfl (Or.inr rfl)
  exact ⟨h.1, h.2.1⟩

/-- C2: `change_ip_repeatedly`'s count contract, in environments where a
cycle cannot abort the process and the interval spec parses.  `count == 0`
never returns on its own (any fuel bound is exhausted with the loop still
going) and stops exactly at the first interrupt; `count == k > 0` performs
exactly the `k` listed cycles and returns normally, without needing any
cancellation; `count < 0` performs zero cycles and returns. -/
theorem c2_count_contract (env : Env) (spec : String) (intr : Nat → Bool)
    (count : Int) (fuel : Nat) (hs : cycleSafe env) (hp : specOk spec) :
    (count = 0 → (∀ i, intr i = false) →
        ∃ t, change_ip_repeatedly env spec intr count fuel = LoopOut.fuelOut t) ∧
    (count = 0 → ∀ n, (∀ j, j < n → intr j = false) → intr n = true → n < fuel →
        change_ip_repeatedly env spec intr count fuel =
          LoopOut.done
            ((((List.range n).map fun j => (cycleBody env spec j).events).flatten)
                ++ (signal_handler env).events)
            (signal_handler env).result) ∧
    (0 < count → (∀ i, intr i = false) →
        change_ip_repeatedly env spec intr count fuel =
          LoopOut.done
            (((List.range count.toNat).map fun i => (cycleBody env spec i).events).flatten)
            (Except.ok ())) ∧
    (count < 0 →
        change_ip_repeatedly env spec intr count fuel =
          LoopOut.done [] (Except.ok ())) := by
  have hb : ∀ i, (cycleBody env spec i).result = Except.ok () :=
    fun i => cycleBody_ok_of_safe env spec i hs hp
  refine ⟨?_, ?_, ?_, ?_⟩
  · intro hc hint
    unfold change_ip_repeatedly
    rw [if_pos hc]
    exact loopWhile_noIntr env spec intr hb hint fuel 0
  · intro hc n hbefore hn hf
    unfold change_ip_repeatedly
    rw [if_pos hc]
    have h := loopWhile_intr_gen env spec intr n fuel 0
      (fun j hj => by simpa using hbefore j hj) (by simpa using hn)
      (fun j hj => by simpa using hb j) hf
    simpa using h
  · intro hc hint
    unfold change_ip_repeatedly
    rw [if_neg (by omega)]
    have hrange : pyRange count = List.range count.toNat := by
      unfold pyRange
      rw [if_neg (by omega)]
    rw [hrange, loopFor_ok env spec intr (List.range count.toNat)
      (fun i _ => hint i) (fun i _ => hb i)]
  · intro hc
    unfold change_ip_repeatedly
    rw [if_neg (by omega)]
    have hrange : pyRange count = [] := by
      unfold pyRange
      rw [if_pos (by omega)]
    rw [hrange]
    rfl

theorem c2_witness :
    change_ip_repeatedly envBase "1" noIntr 2 5 =
      LoopOut.done
        [Event.sleep 1, Event.exec ["systemctl", "reload", "tor"], Event.sleep 2,
          Event.oracleFetch false, Event.report "5.6.7.8",
          Event.sleep 1, Event.exec ["systemctl", "reload", "tor"], Event.sleep 2,
          Event.oracleFetch false, Event.report "5.6.7.8"]
        (Except.ok ()) := by
  have h := (c2_count_contract envBase "1" noIntr 2 5
    (Or.inr ⟨⟨SvcMgr.systemctl, rfl⟩, Or.inl rfl⟩) (fun d => ⟨1, rfl⟩)).2.2.1
    (by decide) (fun i => rfl)
  rw [h]
  rfl

/-- C3: interval resolution.  A hyphen-free spec resolves to its own integer
value; a range spec `lo-hi` with `lo ≤ hi` resolves, on draw `d`, to
`lo + (d mod (hi-lo+1))`, which lies in `[lo, hi]` inclusive; every value of
`[lo, hi]` is hit by exactly one draw below the span (so a uniform draw
induces the uniform distribution on the closed range); and the sleep of
cycle `i` is the resolution of the spec against that cycle's own fresh draw
`rng i` — never a cached value. -/
theorem c3_interval_resolution :
    (∀ s n d, pyContains s '-' = false → pyInt s = Except.ok n →
        (parse_interval s d).result = Except.ok n) ∧
    (∀ s lo hi d, pyContains s '-' = true →
        pyInt (splitOnce s).1 = Except.ok lo → pyInt (splitOnce s).2 = Except.ok hi →
        lo ≤ hi →
        (parse_interval s d).result =
            Except.ok (lo + Int.ofNat (d % (hi - lo + 1).toNat)) ∧
          lo ≤ lo + Int.ofNat (d % (hi - lo + 1).toNat) ∧
          lo + Int.ofNat (d % (hi - lo + 1).toNat) ≤ hi) ∧
    (∀ lo hi x : Int, lo ≤ hi → lo ≤ x → x ≤ hi →
        ∃ d, d < (hi - lo + 1).toNat ∧ randint lo hi d = Except.ok x) ∧
    (∀ (lo hi : Int) (d1 d2 : Nat), lo ≤ hi →
        d1 < (hi - lo + 1).toNat → d2 < (hi - lo + 1).toNat →
        randint lo hi d1 = randint lo hi d2 → d1 = d2) ∧
    (∀ env spec i v, (parse_interval spec (env.rng i)).result = Except.ok v →
        (cycleBody env spec i).events.head? = some (Event.sleep v)) := by
  refine ⟨?_, ?_, ?_, ?_, ?_⟩
  · intro s n d hc hint
    unfold parse_interval
    rw [if_neg (by simp [hc]), hint]
    rfl
  · intro s lo hi d hc h1 h2 hle
    have hres : (parse_interval s d).result =
        Except.ok (lo + Int.ofNat (d % (hi - lo + 1).toNat)) := by
      unfold parse_interval
      rw [if_pos hc]
      simp only [h1, h2]
      rw [show randint lo hi d =
          Except.ok (lo + Int.ofNat (d % (hi - lo + 1).toNat)) from by
        unfold randint
        rw [if_pos hle]]
      rfl
    have hspanpos : 0 < (hi - lo + 1).toNat := by omega
    have hmod : d % (hi - lo + 1).toNat < (hi - lo + 1).toNat :=
      Nat.mod_lt d hspanpos
    refine ⟨hres, ?_, ?_⟩ <;> simp only [Int.ofNat_eq_coe] <;> omega
  · intro lo hi x hle hlox hxhi
    refine ⟨(x - lo).toNat, by omega, ?_⟩
    unfold randint
    rw [if_pos hle, Nat.mod_eq_of_lt (by omega)]
    have hval : lo + Int.ofNat (x - lo).toNat = x := by
      simp only [Int.ofNat_eq_coe]
      omega
    rw [hval]
  · intro lo hi d1 d2 hle h1 h2 heq
    unfold randint at heq
    rw [if_pos hle, if_pos hle] at heq
    simp only [Except.ok.injEq] at heq
    rw [Nat.mod_eq_of_lt h1, Nat.mod_eq_of_lt h2] at heq
    simp only [Int.ofNat_eq_coe] at heq
    omega
  · intro env spec i v h
    rw [cycleBody_eq env spec i v h]
    rfl

theorem c3_witness :
    (parse_interval "30-120" 7).result = Except.ok 37 ∧
    (30 : Int) ≤ 37 ∧ (37 : Int) ≤ 120 ∧
    (∃ d, d < ((120 : Int) - 30 + 1).toNat ∧ randint 30 120 d = Except.ok 120) ∧
    (parse_interval "45" 99).result = Except.ok 45 := by
  have h := c3_interval_resolution
  have h2 := h.2.1 "30-120" 30 120 7 rfl rfl rfl (by decide)
  refine ⟨?_, by decide, by decide, h.2.2.1 30 120 120 (by decide) (by decide) (by decide), ?_⟩
  · rw [h2.1]
    rfl
  · exact h.1 "45" 45 99 rfl rfl

theorem bindP_events_head {α β : Type} (p : Proc α) (f : α → Proc β) (e : Event)
    (l : List Event) (h : p.events = e :: l) :
    (bindP p f).events.head? = some e := by
  unfold bindP
  cases hr : p.result <;> simp [h]

theorem prependEvents_head (e : Event) (l : List Event) (L : LoopOut) :
    (loopOutEvents (prependEvents (e :: l) L)).head? = some e := by
  cases L <;> rfl

theorem serviceRun_events_shape (env : Env) (cmd : List String) :
    (serviceRun env cmd).events = [Event.warn] ∨
    (∃ c, (c = cmd ∨ c = "sudo" :: cmd) ∧
      ((serviceRun env cmd).events = [Event.exec c] ∨
        (serviceRun env cmd).events = [Event.exec c, Event.warn])) := by
  unfold serviceRun runCmd
  by_cases hr : env.isRoot
  · rw [bind_eq_bindP, if_neg (by simp [hr]), execCmd_nocheck, bindP_mk_ok]
    by_cases hz : env.retcode cmd ≠ 0
    · right
      exact ⟨cmd, Or.inl rfl, Or.inr (by rw [if_pos hz]; rfl)⟩
    · right
      exact ⟨cmd, Or.inl rfl, Or.inl (by rw [if_neg hz]; rfl)⟩
  · by_cases hsud : env.hasSudo
    · rw [bind_eq_bindP, if_pos (by simp [hr]), if_neg (by simp [hsud]),
        execCmd_nocheck, bindP_mk_ok]
      by_cases hz : env.retcode ("sudo" :: cmd) ≠ 0
      · right
        exact ⟨"sudo" :: cmd, Or.inr rfl, Or.inr (by rw [if_pos hz]; rfl)⟩
      · right
        exact ⟨"sudo" :: cmd, Or.inr rfl, Or.inl (by rw [if_neg hz]; rfl)⟩
    · rw [bind_eq_bindP, if_pos (by simp [hr]), if_pos (by simp [hsud])]
      left
      rfl

theorem service_action_no_pkill (env : Env) (action : String) :
    Event.exec ["pkill", "-f", "tornet"] ∉ (service_action env action).events := by
  unfold service_action detect_service_manager
  by_cases hos : env.os = OS.windows
  · rw [if_pos hos]
    simp [emit]
  · rw [if_neg hos]
    cases env.svcMgr with
    | none => simp [pyError]
    | some m =>
        have key : ∀ base : List String, base.head? = some "systemctl" ∨
            base.head? = some "service" →
            Event.exec ["pkill", "-f", "tornet"] ∉ (serviceRun env base).events := by
          intro base hbase
          rcases serviceRun_events_shape env base with h | ⟨c, hc, h⟩
          · rw [h]
            simp
          · have hne : c ≠ ["pkill", "-f", "tornet"] := by
              intro hceq
              rcases hc with hc | hc
              · rw [hceq] at hc
                rcases hbase with hb | hb <;> rw [← hc] at hb <;> simp at hb
              · rw [hc] at hceq
                simp at hceq
            rcases h with h | h <;> rw [h] <;> simp [hne] <;>
              exact fun hx => hne hx.symm
        cases m with
        | systemctl => exact key ["systemctl", action, "tor"] (Or.inl rfl)
        | service => exact key ["service", "tor", action] (Or.inr rfl)

theorem stop_services_events_shape (env : Env) (hs : cycleSafe env) :
    (stop_services env).events =
      (if env.os = OS.windows then [Event.exec ["taskkill", "/F", "/IM", "tor.exe"]]
        else (service_action env "stop").events) ++
        [Event.exec ["pkill", "-f", "tornet"]] := by
  unfold stop_services
  by_cases hos : env.os = OS.windows
  · rw [if_pos hos, if_pos hos]
    rfl
  · rcases hs with h | ⟨⟨m, hm⟩, hpriv⟩
    · exact absurd h hos
    · rw [if_neg hos, if_neg hos,
        proc_bind_ok _ _ () (service_action_ok env _ hos m hm hpriv)]
      rfl

theorem stop_services_pkill_once (env : Env) (hs : cycleSafe env) :
    ((stop_services env).events.count (Event.exec ["pkill", "-f", "tornet"])) = 1 := by
  rw [stop_services_events_shape env hs, List.count_append]
  by_cases hos : env.os = OS.windows
  · rw [if_pos hos]
    decide
  · rw [if_neg hos]
    rw [List.count_eq_zero.mpr (service_action_no_pkill env "stop")]
    decide

/-- C4 counterexample: with a malformed interval the process does perform
its whole startup (environment initialisation, the 5-second settling sleep)
and enters the rotation loop; the distinct exit status 8 is only raised by
the first `parse_interval` call inside `change_ip_repeatedly` — refuting
"exits before the rotation loop starts / validated eagerly". -/
theorem c4_counterexample :
    main_loop envBase "abc" 3 noIntr 10 =
      LoopOut.done
        [Event.exec ["systemctl", "start", "tor"], Event.sleep 5, Event.warn]
        (Except.error 8) ∧
    change_ip_repeatedly envBase "abc" noIntr 3 10 =
      LoopOut.done [Event.warn] (Except.error 8) ∧
    Event.sleep 5 ∈ loopOutEvents (main_loop envBase "abc" 3 noIntr 10) :=
  ⟨rfl, rfl, by decide⟩

/-- C4 amended: `parse_interval` either resolves or performs
`error(..., 8)`: a clean process exit with the distinct configuration
status 8, never an uncaught crash — shown for the three malformed shapes
(non-numeric, multiple hyphens, inverted range, the last through
`random.randint`'s `ValueError`).  The validation is deferred, not eager:
the loop's very first cycle exits 8 at its interval resolution, before
sleeping or rotating. -/
theorem c4_interval_error_handling :
    (∀ s d, (∃ v, parse_interval s d = ⟨[], Except.ok v⟩) ∨
        parse_interval s d = ⟨[Event.warn], Except.error 8⟩) ∧
    (∀ d, (parse_interval "abc" d).result = Except.error 8) ∧
    (∀ d, (parse_interval "1-2-3" d).result = Except.error 8) ∧
    (∀ d, (parse_interval "120-30" d).result = Except.error 8) ∧
    (∀ env spec intr count fuel, intr 0 = false → (count = 0 ∨ 0 < count) → 0 < fuel →
        (parse_interval spec (env.rng 0)).result = Except.error 8 →
        change_ip_repeatedly env spec intr count fuel =
          LoopOut.done [Event.warn] (Except.error 8)) := by
  refine ⟨parse_interval_cases, fun d => rfl, fun d => rfl, fun d => rfl, ?_⟩
  intro env spec intr count fuel hintr hcount hfuel hp
  have hcb : cycleBody env spec 0 = ⟨[Event.warn], Except.error 8⟩ :=
    cycleBody_err env spec 0 hp
  rcases hcount with hc | hc
  · unfold change_ip_repeatedly
    rw [if_pos hc]
    cases fuel with
    | zero => omega
    | succ m =>
        unfold loopWhile
        rw [if_neg (by simp [hintr]), hcb]
  · unfold change_ip_repeatedly
    rw [if_neg (by omega)]
    obtain ⟨m, hm⟩ : ∃ m, count.toNat = m + 1 := ⟨count.toNat - 1, by omega⟩
    have hrange : pyRange count = 0 :: (List.range m).map Nat.succ := by
      unfold pyRange
      rw [if_neg (by omega), hm, List.range_succ_eq_map]
    rw [hrange]
    unfold loopFor
    rw [if_neg (by simp [hintr]), hcb, bindP_mk_error]

theorem c4_witness :
    change_ip_repeatedly envBase "abc" noIntr 1 3 =
      LoopOut.done [Event.warn] (Except.error 8) :=
  c4_interval_error_handling.2.2.2.2 envBase "abc" noIntr 1 3 rfl
    (Or.inr (by decide)) (by decide) rfl

/-- C8 counterexample: in a cycle of a POSIX host whose reload fails
(return code 1, the warning in the trace), the same cycle still fetches and
reports the IP — so "(on success) fetch and report the IP" does not hold of
the rotate step; the order itself (sleep, rotate, fetch, report) is visible
in the trace. -/
theorem c8_counterexample :
    envReloadFails.retcode ["systemctl", "reload", "tor"] ≠ 0 ∧
    (cycleBody envReloadFails "3" 1).events =
      [Event.sleep 3, Event.exec ["systemctl", "reload", "tor"], Event.warn,
        Event.sleep 2, Event.oracleFetch false, Event.report "5.6.7.8"] :=
  ⟨by decide, rfl⟩

/-- C8 amended: every cycle's trace is the interval sleep, then the rotate
step's events, then the report exactly when a truthy IP came back; on POSIX
the rotate events are the reload command followed by the 2-second settle and
the direct fetch, on Windows (with NEWNYM accepted) the NEWNYM, the settle
and the fetch; and a run with a nonnegative count never rotates immediately:
its first event is the first cycle's interval sleep. -/
theorem c8_cycle_order (env : Env) (spec : String) :
    (∀ i v, (parse_interval spec (env.rng i)).result = Except.ok v →
        (cycleBody env spec i).events =
          Event.sleep v ::
            ((change_ip env).events ++ reportEvents (change_ip env).result)) ∧
    (env.os ≠ OS.windows → cycleSafe env →
        (change_ip env).events =
          (service_action env "reload").events ++
            Event.sleep 2 :: Event.oracleFetch false :: netWarn env.directNet) ∧
    (env.os = OS.windows → env.ctrlConnOk = true → env.newnym250 = true →
        (change_ip env).events =
          Event.newnym :: Event.sleep 2 :: (get_current_ip env).events) ∧
    (∀ intr count fuel v, intr 0 = false → 0 ≤ count → 0 < fuel →
        (parse_interval spec (env.rng 0)).result = Except.ok v →
        (loopOutEvents (change_ip_repeatedly env spec intr count fuel)).head? =
          some (Event.sleep v)) := by
  refine ⟨?_, ?_, ?_, ?_⟩
  · intro i v hp
    rw [cycleBody_eq env spec i v hp]
  · intro hos hs
    rcases hs with h | ⟨⟨m, hm⟩, hpriv⟩
    · exact absurd h hos
    · rw [change_ip_posix env hos (service_action_ok env _ hos m hm hpriv)]
  · intro hos hc hn
    rw [change_ip_windows_accepted env hos hc hn]
  · intro intr count fuel v hintr hcnt hfuel hp
    have hev : (cycleBody env spec 0).events =
        Event.sleep v ::
          ((change_ip env).events ++ reportEvents (change_ip env).result) := by
      rw [cycleBody_eq env spec 0 v hp]
    rcases lt_or_eq_of_le hcnt with hpos | hzero
    · unfold change_ip_repeatedly
      rw [if_neg (by omega)]
      obtain ⟨m, hm⟩ : ∃ m, count.toNat = m + 1 := ⟨count.toNat - 1, by omega⟩
      have hrange : pyRange count = 0 :: (List.range m).map Nat.succ := by
        unfold pyRange
        rw [if_neg (by omega), hm, List.range_succ_eq_map]
      rw [hrange]
      unfold loopFor
      rw [if_neg (by simp [hintr])]
      exact bindP_events_head _ _ _ _ hev
    · unfold change_ip_repeatedly
      rw [if_pos hzero.symm]
      cases fuel with
      | zero => omega
      | succ m =>
          unfold loopWhile
          rw [if_neg (by simp [hintr])]
          cases hres : (cycleBody env spec 0).result with
          | error c =>
              simp only [hres]
              rw [show loopOutEvents
                  (LoopOut.done (cycleBody env spec 0).events (Except.error c)) =
                  (cycleBody env spec 0).events from rfl, hev]
              rfl
          | ok a =>
              simp only [hres]
              rw [hev]
              exact prependEvents_head _ _ _

theorem c8_witness :
    (loopOutEvents (change_ip_repeatedly envBase "3" noIntr 2 5)).head? =
      some (Event.sleep 3) :=
  (c8_cycle_order envBase "3").2.2.2 noIntr 2 5 3 rfl (by decide) (by decide) rfl

/-- C9 counterexample: an interrupt during the first sleep on a POSIX host
with no service manager makes the cleanup itself call `error(..., 3)`:
the process exits with status 3, not 0, and the `pkill` cleanup sub-step
never runs — refuting "tolerating failures silently for each cleanup
sub-step, and the process exits with a zero status". -/
theorem c9_counterexample :
    change_ip_repeatedly envNoMgr "3" (fun _ => true) 0 5 =
      LoopOut.done [Event.warn] (Except.error 3) ∧
    Event.exec ["pkill", "-f", "tornet"] ∉
      loopOutEvents (change_ip_repeatedly envNoMgr "3" (fun _ => true) 0 5) :=
  ⟨rfl, by decide⟩

/-- C9 amended: in environments whose cleanup can run (Windows, or POSIX
with a service manager and root/sudo), an interrupt arriving at cycle `n`
stops the loop — no further cycle is attempted — and the whole remaining
trace is exactly one run of `stop_services` (containing the `pkill` cleanup
exactly once; a failing stop command only warns), after which the process
exits with status 0. -/
theorem c9_interrupt_shutdown (env : Env) (spec : String) (intr : Nat → Bool)
    (n fuel : Nat) (hbefore : ∀ j, j < n → intr j = false) (hn : intr n = true)
    (hf : n < fuel) (hs : cycleSafe env) (hp : specOk spec) :
    change_ip_repeatedly env spec intr 0 fuel =
      LoopOut.done
        ((((List.range n).map fun j => (cycleBody env spec j).events).flatten)
            ++ (stop_services env).events)
        (Except.error 0) ∧
    ((stop_services env).events.count (Event.exec ["pkill", "-f", "tornet"])) = 1 ∧
    exitCode (Except.error 0 : Except Nat Unit) = 0 := by
  have hsig : signal_handler env = ⟨(stop_services env).events, Except.error 0⟩ := by
    rw [signal_handler_eq env, stop_services_ok env hs]
  have hb : ∀ i, (cycleBody env spec i).result = Except.ok () :=
    fun i => cycleBody_ok_of_safe env spec i hs hp
  refine ⟨?_, stop_services_pkill_once env hs, rfl⟩
  unfold change_ip_repeatedly
  rw [if_pos rfl]
  have h := loopWhile_intr_gen env spec intr n fuel 0
    (fun j hj => by simpa using hbefore j hj) (by simpa using hn)
    (fun j hj => by simpa using hb j) hf
  simp only [Nat.zero_add] at h
  rw [h, hsig]

theorem c9_witness :
    change_ip_repeatedly envBase "3" (fun i => i == 1) 0 5 =
      LoopOut.done
        [Event.sleep 3, Event.exec ["systemctl", "reload", "tor"], Event.sleep 2,
          Event.oracleFetch false, Event.report "5.6.7.8",
          Event.exec ["systemctl", "stop", "tor"], Event.exec ["pkill", "-f", "tornet"]]
        (Except.error 0) := by
  have h := (c9_interrupt_shutdown envBase "3" (fun i => i == 1) 1 5
    (by
      intro j hj
      have hj0 : j = 0 := by omega
      rw [hj0]
      rfl)
    rfl (by decide)
    (Or.inr ⟨⟨SvcMgr.systemctl, rfl⟩, Or.inl rfl⟩) (fun d => ⟨3, rfl⟩)).1
  rw [h]
  rfl

end Tornet
